import Mathlib

/-
Verification of `applications/Chat/coati/trainer/strategies/naive.py`
(ColossalAI, Chat application): the `NaiveStrategy` class and the helper
`get_grad_required_state_dict`.

Shallow embedding conventions:
- A model (`nn.Module`) is its ordered list of named parameters plus the
  `isinstance(_, PreTrainedModel)` flag used by `save_pretrained`'s assertion.
- A tensor parameter is modelled by its `requires_grad` flag, its `numel()`,
  its `element_size()` and its value data; `detach()` returns the same data
  with `requires_grad` cleared, which matches `torch.Tensor.detach`.
- Python's `OrderedDict` is an association list; assignment `d[k] = v`
  updates in place when the key is present and appends otherwise.
- The process environment is a partial map `String → Option String`;
  `os.environ[k]` raises `KeyError(k)` when absent, `int(s)` raises
  `ValueError` when `s` is not an integer literal.
- Exceptional control flow is `Except PyExc`; external calls performed by
  `_try_init_dist` (`dist.init_process_group`, `torch.cuda.set_device`) and
  `save_pretrained` are recorded as effect values, and the outcome of the
  process-group initialization call is an oracle `DistCall → Option PyExc`
  (`none` = the library call returns, `some e` = it raises `e`).
-/

/-- Model of a parameter tensor: `requires_grad` flag, `numel()`,
`element_size()`, and the value data. -/
structure Param where
  requiresGrad : Bool
  numel : Nat
  elementSize : Nat
  data : List Int
deriving DecidableEq, Repr

/-- Model of `torch.Tensor.detach`: same data, `requires_grad` cleared. -/
def Param.detach (p : Param) : Param :=
  { p with requiresGrad := false }

/-- Model of an `nn.Module` as seen by this file: its named-parameter list in
iteration order, plus whether it is a `transformers.PreTrainedModel`. -/
structure PyModel where
  isPreTrainedModel : Bool
  namedParameters : List (String × Param)
deriving DecidableEq, Repr

/-- Model of `model.state_dict()` for the modules modelled here (parameters
only; no buffers are modelled). -/
def PyModel.state_dict (model : PyModel) : List (String × Param) :=
  model.namedParameters

/-- Modelled from the spec: `Strategy.unwrap_model` is inherited from the base
`Strategy` class, whose source is not under `src/`; the spec states the model
object "is borrowed from an externally supplied model object for the duration
of a single call and never mutated", so the naive strategy's unwrap is the
identity on the model. -/
def unwrap_model (model : PyModel) : PyModel :=
  model

/-- Model of Python `OrderedDict` assignment `d[k] = v`: update in place when
`k` is already a key, append at the end otherwise. -/
def odSet (d : List (String × Param)) (k : String) (v : Param) :
    List (String × Param) :=
  if k ∈ d.map Prod.fst then d.map (fun q => if q.1 = k then (k, v) else q)
  else d ++ [(k, v)]

/-- Loop body of `get_grad_required_state_dict`: for one `(name, parameter)`
pair, `if parameter.requires_grad: state_dict[name] = parameter.detach()`. -/
def ggStep (d : List (String × Param)) (np : String × Param) :
    List (String × Param) :=
  if np.2.requiresGrad then odSet d np.1 np.2.detach else d

/-- Embedding of `get_grad_required_state_dict(model)`: iterate over
`model.named_parameters()`, inserting `parameter.detach()` under `name` into a
fresh `OrderedDict` whenever `parameter.requires_grad`. -/
def get_grad_required_state_dict (model : PyModel) : List (String × Param) :=
  model.namedParameters.foldl ggStep []

/-- Byte size of one parameter: `param.numel() * param.element_size()`. -/
def shardBytes (p : Param) : Nat :=
  p.numel * p.elementSize

/-- Total byte size of a chunk of parameters. -/
def chunkBytes (c : List (String × Param)) : Nat :=
  (c.map (fun np => shardBytes np.2)).sum

/-- Embedding of the sharding loop of `get_model_state_dict_shard`: append
each parameter to the current chunk, add its byte size to the accumulator,
flush (yield the chunk, reset the accumulator) once the accumulator reaches
`shard_size`, and after the loop yield the remainder iff the accumulator is
positive. The yielded chunks are collected into a list. -/
def shardGo (shard_size : Int) :
    List (String × Param) → Nat → List (String × Param) →
      List (List (String × Param))
  | [], acc, cur => if 0 < acc then [cur] else []
  | np :: rest, acc, cur =>
      let cur' := cur ++ [np]
      let acc' := acc + shardBytes np.2
      if shard_size ≤ (acc' : Int) then cur' :: shardGo shard_size rest 0 []
      else shardGo shard_size rest acc' cur'

/-- Embedding of `NaiveStrategy.get_model_state_dict_shard(model, **config)`.
The two recognized config keys are modelled as options:
`requires_grad_only = some true` models `config['requires_grad_only'] == True`,
`shard_size = some s` models `'shard_size' in config`. Without `shard_size`
the whole state dict is yielded once. -/
def get_model_state_dict_shard (model : PyModel)
    (requires_grad_only : Option Bool) (shard_size : Option Int) :
    List (List (String × Param)) :=
  let model := unwrap_model model
  let state_dict :=
    if requires_grad_only = some true then get_grad_required_state_dict model
    else model.state_dict
  match shard_size with
  | some s => shardGo s state_dict 0 []
  | none => [state_dict]

/-- Python exceptions that the embedded code can raise or observe. -/
inductive PyExc where
  | keyError (key : String)
  | valueError (msg : String)
  | runtimeError (msg : String)
  | otherError (tag : String)
deriving DecidableEq, Repr

/-- Whether an exception is a `KeyError` (the class matched by the first
`except` clause of `_try_init_dist`). -/
def PyExc.isKeyError : PyExc → Bool
  | .keyError _ => true
  | _ => false

/-- Accumulate decimal digits; fails on the first non-digit character. -/
def digitsAccum : List Char → Nat → Option Nat
  | [], acc => some acc
  | c :: cs, acc =>
      if c.isDigit then digitsAccum cs (10 * acc + (c.toNat - 48)) else none

/-- Value of a nonempty all-digit character list, `none` otherwise. -/
def decDigits? : List Char → Option Nat
  | [] => none
  | c :: cs => if c.isDigit then digitsAccum cs (c.toNat - 48) else none

/-- Model of Python `int(s)` on the strings relevant here: an optional sign
followed by a nonempty run of decimal digits; `none` models `ValueError`. -/
def pyInt? (s : String) : Option Int :=
  match s.data with
  | '-' :: cs => (decDigits? cs).map (fun n => -(n : Int))
  | '+' :: cs => (decDigits? cs).map (fun n => (n : Int))
  | cs => (decDigits? cs).map (fun n => (n : Int))

/-- Arguments of the `dist.init_process_group` call. -/
structure DistCall where
  backend : String
  init_method : String
  world_size : Int
  rank : Int
deriving DecidableEq, Repr

/-- External effects performed on the success path of `_try_init_dist`:
the process-group initialization and `torch.cuda.set_device(local_rank)`. -/
inductive Effect where
  | initPG (call : DistCall)
  | setDevice (index : Int)
deriving DecidableEq, Repr

/-- The process environment: a partial map from variable names to values. -/
def Env : Type :=
  String → Option String

/-- Model of `int(os.environ[k])`: `KeyError(k)` when the variable is absent,
`ValueError` when its value does not parse as an integer. -/
def readInt (env : Env) (k : String) : Except PyExc Int :=
  match env k with
  | none => .error (.keyError k)
  | some s =>
      match pyInt? s with
      | none =>
          .error (.valueError ("invalid literal for int() with base 10: " ++ s))
      | some n => .ok n

/-- The message of the `RuntimeError` raised for a missing variable `v`; the
`{e}` interpolation of `KeyError(v)` prints as `v` in single quotes. -/
def missingVarMsg (v : String) : String :=
  "Could not find \x27" ++ v ++
    "\x27 in the torch environment, visit https://www.colossalai.org/ for more information on launching with torch"

/-- Embedding of the `try` body of `_try_init_dist`: read and parse the five
environment variables in source order, build the `tcp://[host]:port` endpoint,
call `dist.init_process_group('nccl', ...)` (whose outcome is the oracle
`lib`), then `torch.cuda.set_device(local_rank)`. Returns the effects
performed on success, or the first exception raised. -/
def distInitBody (env : Env) (lib : DistCall → Option PyExc) :
    Except PyExc (List Effect) :=
  match readInt env "RANK" with
  | .error e => .error e
  | .ok rank =>
  match readInt env "LOCAL_RANK" with
  | .error e => .error e
  | .ok local_rank =>
  match readInt env "WORLD_SIZE" with
  | .error e => .error e
  | .ok world_size =>
  match env "MASTER_ADDR" with
  | none => .error (.keyError "MASTER_ADDR")
  | some host =>
  match readInt env "MASTER_PORT" with
  | .error e => .error e
  | .ok port =>
  let call : DistCall :=
    { backend := "nccl",
      init_method := "tcp://[" ++ host ++ "]:" ++ toString port,
      world_size := world_size,
      rank := rank }
  match lib call with
  | some e => .error e
  | none => .ok [Effect.initPG call, Effect.setDevice local_rank]

/-- Embedding of `NaiveStrategy._try_init_dist(force)`: run the body; a
`KeyError` becomes a `RuntimeError` naming the variable when `force`, any
other exception is re-raised unchanged when `force`, and every exception is
swallowed (returning normally, with no effects performed) when not `force`. -/
def _try_init_dist (env : Env) (lib : DistCall → Option PyExc) (force : Bool) :
    Except PyExc (List Effect) :=
  match distInitBody env lib with
  | .ok effs => .ok effs
  | .error (.keyError k) =>
      if force then .error (.runtimeError (missingVarMsg k)) else .ok []
  | .error e => if force then .error e else .ok []

/-- Embedding of `NaiveStrategy.setup_distributed()`:
`self._try_init_dist(force=False)`. -/
def setup_distributed (env : Env) (lib : DistCall → Option PyExc) :
    Except PyExc (List Effect) :=
  _try_init_dist env lib false

/-- External effects performed by `save_pretrained`: the pretrained-model
serialization and the tokenizer serialization, each to a path. A tokenizer is
modelled as an opaque identifier. -/
inductive SaveEffect where
  | modelSaved (m : PyModel) (path : String)
  | tokenizerSaved (t : String) (path : String)
deriving DecidableEq, Repr

/-- Embedding of `NaiveStrategy.save_pretrained(model, path, only_rank0,
tokenizer)`: unwrap the model, assert it is a `PreTrainedModel`, serialize it
to `path`, and serialize the tokenizer to the same path when one is given.
The `only_rank0` argument is accepted and never read, as in the source. -/
def save_pretrained (model : PyModel) (path : String) (only_rank0 : Bool)
    (tokenizer : Option String) : Except PyExc (List SaveEffect) :=
  let unwrapped := unwrap_model model
  if unwrapped.isPreTrainedModel then
    .ok (SaveEffect.modelSaved unwrapped path ::
      (match tokenizer with
       | some t => [SaveEffect.tokenizerSaved t path]
       | none => []))
  else .error (.otherError "AssertionError")

/-- State-passing variant of the `get_grad_required_state_dict` loop: the
model's parameter list is threaded through the iteration as explicit state,
each element being read and put back, so that the state left behind by the
call is visible in the result. -/
def ggStGo : List (String × Param) → List (String × Param) →
    List (String × Param) × List (String × Param)
  | [], d => (d, [])
  | np :: rest, d =>
      let d' := ggStep d np
      let r := ggStGo rest d'
      (r.1, np :: r.2)

/-- State-passing variant of `get_grad_required_state_dict`: returns the
state dict together with the model state after the call. -/
def get_grad_required_state_dict_st (model : PyModel) :
    List (String × Param) × PyModel :=
  let r := ggStGo model.namedParameters []
  (r.1, { model with namedParameters := r.2 })

/-- State-passing variant of `model.state_dict()`: each parameter is read
from the model state and put back. -/
def stateDictStGo : List (String × Param) →
    List (String × Param) × List (String × Param)
  | [] => ([], [])
  | np :: rest =>
      let r := stateDictStGo rest
      (np :: r.1, np :: r.2)

/-- State-passing variant of `model.state_dict()` on a whole model. -/
def state_dict_st (model : PyModel) : List (String × Param) × PyModel :=
  let r := stateDictStGo model.namedParameters
  (r.1, { model with namedParameters := r.2 })

/-- State-passing variant of `get_model_state_dict_shard`: the state dict is
extracted through the state-passing readers, then chunked purely; the model
state after the call is returned alongside the chunks. -/
def get_model_state_dict_shard_st (model : PyModel)
    (requires_grad_only : Option Bool) (shard_size : Option Int) :
    List (List (String × Param)) × PyModel :=
  let ex :=
    if requires_grad_only = some true then get_grad_required_state_dict_st model
    else state_dict_st model
  ((match shard_size with
    | some s => shardGo s ex.1 0 []
    | none => [ex.1]), ex.2)

/-! Concrete instances used by witnesses and counterexamples. -/

/-- A 4-byte parameter requiring gradients. -/
def p4 : Param :=
  { requiresGrad := true, numel := 2, elementSize := 2, data := [1, 2] }

/-- A 4-byte parameter not requiring gradients. -/
def p4f : Param :=
  { requiresGrad := false, numel := 2, elementSize := 2, data := [3, 4] }

/-- A parameter with `numel() = 0`, hence zero byte size. -/
def zeroParam : Param :=
  { requiresGrad := false, numel := 0, elementSize := 4, data := [] }

/-- A two-parameter pretrained model. -/
def modelW : PyModel :=
  { isPreTrainedModel := true, namedParameters := [("w", p4), ("b", p4f)] }

/-- A model whose single parameter occupies zero bytes. -/
def modelZ : PyModel :=
  { isPreTrainedModel := true, namedParameters := [("w", zeroParam)] }

/-- A model with two 4-byte parameters. -/
def modelAB : PyModel :=
  { isPreTrainedModel := true, namedParameters := [("a", p4), ("b", p4)] }

/-- An environment defining all five variables with well-formed values. -/
def envW : Env := fun k =>
  if k = "RANK" then some "1"
  else if k = "LOCAL_RANK" then some "0"
  else if k = "WORLD_SIZE" then some "2"
  else if k = "MASTER_ADDR" then some "10.0.0.1"
  else if k = "MASTER_PORT" then some "29500"
  else none

/-- An environment defining none of the variables. -/
def envNone : Env := fun _ => none

/-- An environment with a non-integer RANK and everything else missing. -/
def cexEnv : Env := fun k => if k = "RANK" then some "abc" else none

/-- A process-group initialization oracle that always succeeds. -/
def lib0 : DistCall → Option PyExc := fun _ => none

/-- Whether a run of `_try_init_dist` ended in a raised `RuntimeError`. -/
def raisedRuntimeError : Except PyExc (List Effect) → Bool
  | .error (.runtimeError _) => true
  | _ => false

/-! Lemmas about `get_grad_required_state_dict`. -/

/-- OrderedDict assignment under a fresh key appends the pair at the end. -/
lemma odSet_fresh (d : List (String × Param)) (k : String) (v : Param)
    (h : k ∉ d.map Prod.fst) : odSet d k v = d ++ [(k, v)] := by
  simp [odSet, h]

/-- Folding the filter loop over key-distinct parameters, starting from an
accumulator whose keys are disjoint from theirs, appends exactly the detached
gradient-requiring parameters in order. -/
lemma ggStep_foldl (l : List (String × Param)) :
    ∀ d : List (String × Param), (l.map Prod.fst).Nodup →
      (∀ k, k ∈ l.map Prod.fst → k ∉ d.map Prod.fst) →
      l.foldl ggStep d
        = d ++ (l.filter (fun np => np.2.requiresGrad)).map
            (fun np => (np.1, np.2.detach)) := by
  induction l with
  | nil => intro d _ _; simp
  | cons np rest ih =>
      intro d hnd hdisj
      have hfresh : np.1 ∉ d.map Prod.fst := hdisj np.1 (by simp)
      have hnd' : (rest.map Prod.fst).Nodup := by
        simp only [List.map_cons, List.nodup_cons] at hnd
        exact hnd.2
      have hhead : np.1 ∉ rest.map Prod.fst := by
        simp only [List.map_cons, List.nodup_cons] at hnd
        exact hnd.1
      rw [List.foldl_cons]
      by_cases hg : np.2.requiresGrad
      · have hstep : ggStep d np = d ++ [(np.1, np.2.detach)] := by
          simp [ggStep, hg, odSet_fresh d np.1 np.2.detach hfresh]
        rw [hstep, ih (d ++ [(np.1, np.2.detach)]) hnd' ?disj]
        · simp [List.filter_cons, hg]
        case disj =>
          intro k hk
          have h1 : k ∉ d.map Prod.fst := hdisj k (by simp [hk])
          have h2 : k ≠ np.1 := by
            intro hkeq
            rw [hkeq] at hk
            exact hhead hk
          simp [List.map_append, h1, h2]
      · have hstep : ggStep d np = d := by simp [ggStep, hg]
        rw [hstep, ih d hnd' (fun k hk => hdisj k (by simp [hk]))]
        simp [List.filter_cons, hg]

/-- C1: `get_grad_required_state_dict(model)` returns exactly the subset of
the model's named parameters whose `requires_grad` flag is set — it equals
the in-order filter of the named-parameter list mapped to detached values, a
name is a key of the result iff the model has a gradient-requiring parameter
of that name, and each such parameter appears under its name as its detached
value. -/
theorem get_grad_required_state_dict_correct (model : PyModel)
    (h : (model.namedParameters.map Prod.fst).Nodup) :
    get_grad_required_state_dict model
        = (model.namedParameters.filter (fun np => np.2.requiresGrad)).map
            (fun np => (np.1, np.2.detach))
      ∧ (∀ name : String,
          name ∈ (get_grad_required_state_dict model).map Prod.fst ↔
            ∃ p : Param, (name, p) ∈ model.namedParameters
              ∧ p.requiresGrad = true)
      ∧ (∀ (name : String) (p : Param),
          (name, p) ∈ model.namedParameters → p.requiresGrad = true →
            (name, p.detach) ∈ get_grad_required_state_dict model) := by
  have hmain := ggStep_foldl model.namedParameters [] h (by simp)
  simp only [List.nil_append] at hmain
  have hmain' : get_grad_required_state_dict model
      = (model.namedParameters.filter (fun np => np.2.requiresGrad)).map
          (fun np => (np.1, np.2.detach)) := hmain
  refine ⟨hmain', ?_, ?_⟩
  · intro name
    rw [hmain']
    constructor
    · intro hmem
      simp only [List.map_map, List.mem_map, Function.comp] at hmem
      obtain ⟨⟨n2, p2⟩, hnp, heq⟩ := hmem
      obtain ⟨hm, hg⟩ := List.mem_filter.mp hnp
      refine ⟨p2, ?_, by simpa using hg⟩
      simpa [← heq] using hm
    · rintro ⟨p, hm, hg⟩
      simp only [List.map_map, List.mem_map, Function.comp]
      exact ⟨(name, p), List.mem_filter.mpr ⟨hm, by simp [hg]⟩, rfl⟩
  · intro name p hm hg
    rw [hmain']
    exact List.mem_map.mpr ⟨(name, p), List.mem_filter.mpr ⟨hm, by simp [hg]⟩, rfl⟩

/-- Witness for C1 on a concrete two-parameter model: only the
gradient-requiring parameter survives, detached, under its name. -/
theorem get_grad_required_state_dict_correct_witness :
    get_grad_required_state_dict modelW = [("w", p4.detach)] := by
  have h := (get_grad_required_state_dict_correct modelW (by decide)).1
  rw [h]
  rfl

/-! Lemmas for the state-passing variants. -/

/-- The state-passing filter loop computes the same fold and hands the
parameter list back unchanged. -/
lemma ggStGo_spec (l : List (String × Param)) :
    ∀ d, ggStGo l d = (l.foldl ggStep d, l) := by
  induction l with
  | nil => intro d; rfl
  | cons np rest ih => intro d; simp [ggStGo, ih, List.foldl_cons]

/-- The state-passing `state_dict()` read returns the parameter list twice. -/
lemma stateDictStGo_spec (l : List (String × Param)) :
    stateDictStGo l = (l, l) := by
  induction l with
  | nil => rfl
  | cons np rest ih => simp [stateDictStGo, ih]

/-- C8: the read-only operations leave the model unchanged — the
state-passing embeddings of `get_grad_required_state_dict` and
`get_model_state_dict_shard` return the model state exactly as given, and
their results coincide with the pure functions of the model, so nothing is
cached across calls. -/
theorem state_dict_reads_leave_model_unchanged (model : PyModel)
    (rg : Option Bool) (ss : Option Int) :
    (get_grad_required_state_dict_st model).2 = model
      ∧ (get_grad_required_state_dict_st model).1
          = get_grad_required_state_dict model
      ∧ (get_model_state_dict_shard_st model rg ss).2 = model
      ∧ (get_model_state_dict_shard_st model rg ss).1
          = get_model_state_dict_shard model rg ss := by
  obtain ⟨flag, params⟩ := model
  refine ⟨?_, ?_, ?_, ?_⟩ <;>
    by_cases hrg : rg = some true <;>
      simp [get_grad_required_state_dict_st, get_model_state_dict_shard_st,
        ggStGo_spec, stateDictStGo_spec, state_dict_st,
        get_grad_required_state_dict, get_model_state_dict_shard,
        unwrap_model, PyModel.state_dict, hrg]

/-! Lemmas about the sharding loop. -/

/-- When every remaining parameter occupies at least one byte and the
accumulator mirrors the current chunk's emptiness, flattening the produced
chunks recovers the current chunk followed by the remaining parameters. -/
lemma shardGo_flatten (s : Int) (l : List (String × Param)) :
    ∀ (acc : Nat) (cur : List (String × Param)),
      (∀ np ∈ l, 0 < shardBytes np.2) → (acc = 0 ↔ cur = []) →
      (shardGo s l acc cur).flatten = cur ++ l := by
  induction l with
  | nil =>
      intro acc cur _ hinv
      by_cases h : 0 < acc
      · simp [shardGo, h]
      · have hz : acc = 0 := by omega
        simp [shardGo, h, hinv.mp hz]
  | cons np rest ih =>
      intro acc cur hl hinv
      have hpos : 0 < shardBytes np.2 := hl np (by simp)
      rw [shardGo]
      by_cases h : s ≤ ((acc + shardBytes np.2 : Nat) : Int)
      · rw [if_pos h, List.flatten_cons,
          ih 0 [] (fun q hq => hl q (by simp [hq])) (by simp)]
        simp
      · rw [if_neg h,
          ih (acc + shardBytes np.2) (cur ++ [np])
            (fun q hq => hl q (by simp [hq]))
            (by constructor
                · intro hz; omega
                · intro hc; simp at hc)]
        simp

/-- Every chunk the sharding loop emits is nonempty, given that the
accumulator is zero whenever the current chunk is empty. -/
lemma shardGo_ne_nil (s : Int) (l : List (String × Param)) :
    ∀ (acc : Nat) (cur : List (String × Param)), (cur = [] → acc = 0) →
      ∀ c ∈ shardGo s l acc cur, c ≠ [] := by
  induction l with
  | nil =>
      intro acc cur hinv c hc
      by_cases h : 0 < acc
      · rw [shardGo, if_pos h] at hc
        rw [List.mem_singleton] at hc
        subst hc
        intro hcur
        have := hinv hcur
        omega
      · rw [shardGo, if_neg h] at hc
        exact absurd hc (List.not_mem_nil c)
  | cons np rest ih =>
      intro acc cur hinv c hc
      rw [shardGo] at hc
      by_cases h : s ≤ ((acc + shardBytes np.2 : Nat) : Int)
      · rw [if_pos h] at hc
        rcases List.mem_cons.mp hc with rfl | hc'
        · simp
        · exact ih 0 [] (fun _ => rfl) c hc'
      · rw [if_neg h] at hc
        exact ih (acc + shardBytes np.2) (cur ++ [np]) (by simp) c hc
/-- Every chunk the sharding loop emits other than the last was flushed, so
its byte size reaches the threshold, given that the accumulator holds the
current chunk's byte size. -/
lemma shardGo_dropLast_ge (s : Int) (l : List (String × Param)) :
    ∀ (acc : Nat) (cur : List (String × Param)), acc = chunkBytes cur →
      ∀ c ∈ (shardGo s l acc cur).dropLast, s ≤ (chunkBytes c : Int) := by
  induction l with
  | nil =>
      intro acc cur _ c hc
      by_cases h : 0 < acc <;> simp [shardGo, h] at hc
  | cons np rest ih =>
      intro acc cur hacc c hc
      rw [shardGo] at hc
      by_cases h : s ≤ ((acc + shardBytes np.2 : Nat) : Int)
      · rw [if_pos h] at hc
        cases hr : shardGo s rest 0 [] with
        | nil => rw [hr] at hc; simp at hc
        | cons x xs =>
            rw [hr, List.dropLast_cons₂] at hc
            rcases List.mem_cons.mp hc with rfl | hc'
            · have hb : chunkBytes (cur ++ [np]) = acc + shardBytes np.2 := by
                simp [chunkBytes, hacc]
              rw [hb]
              exact h
            · refine ih 0 [] rfl c ?_
              rw [hr]
              exact hc'
      · rw [if_neg h] at hc
        refine ih (acc + shardBytes np.2) (cur ++ [np]) ?_ c hc
        simp [chunkBytes, hacc]

/-- C9: with a `shard_size` every yielded chunk is nonempty; with a positive
`shard_size` every chunk except possibly the last has byte size at least
`shard_size`; an empty state dict with a `shard_size` yields nothing; and
without a `shard_size` exactly the one whole state dict is yielded. -/
theorem get_model_state_dict_shard_chunk_invariants (model : PyModel)
    (s : Int) :
    (∀ c ∈ get_model_state_dict_shard model none (some s), c ≠ [])
      ∧ (0 < s →
          ∀ c ∈ (get_model_state_dict_shard model none (some s)).dropLast,
            s ≤ (chunkBytes c : Int))
      ∧ (∀ b : Bool,
          get_model_state_dict_shard (PyModel.mk b []) none (some s) = [])
      ∧ get_model_state_dict_shard model none none = [model.state_dict] := by
  refine ⟨?_, ?_, ?_, ?_⟩
  · exact shardGo_ne_nil s model.state_dict 0 [] (fun _ => rfl)
  · intro _
    exact shardGo_dropLast_ge s model.state_dict 0 [] rfl
  · intro b
    rfl
  · rfl

/-- Witness for C9 on a concrete two-parameter state dict split at 4 bytes:
the first of the two emitted chunks is nonempty and holds at least 4 bytes. -/
theorem get_model_state_dict_shard_chunk_invariants_witness :
    ([("a", p4)] : List (String × Param)) ≠ []
      ∧ (4 : Int) ≤ (chunkBytes [("a", p4)] : Int) := by
  have h := get_model_state_dict_shard_chunk_invariants modelAB 4
  refine ⟨h.1 [("a", p4)] (by decide), h.2.1 (by decide) [("a", p4)] (by decide)⟩

/-- C6 (amended): with a `shard_size`, chunks are built by linear
accumulation with a threshold flush; when every parameter occupies at least
one byte, the in-order concatenation of the emitted chunks equals the
original state dict, and a chunk list is emitted iff the state dict is
nonempty (the final remainder is emitted exactly when its accumulated byte
size is positive). -/
theorem get_model_state_dict_shard_concat (model : PyModel) (s : Int)
    (hpos : ∀ np ∈ model.state_dict, 0 < shardBytes np.2) :
    (get_model_state_dict_shard model none (some s)).flatten = model.state_dict
      ∧ (get_model_state_dict_shard model none (some s) ≠ [] ↔
          model.state_dict ≠ []) := by
  have hun : get_model_state_dict_shard model none (some s)
      = shardGo s model.state_dict 0 [] := rfl
  have hflat : (get_model_state_dict_shard model none (some s)).flatten
      = model.state_dict := by
    rw [hun, shardGo_flatten s model.state_dict 0 [] hpos (by simp)]
    rfl
  refine ⟨hflat, ?_, ?_⟩
  · intro hne hsd
    apply hne
    rw [hun, hsd]
    rfl
  · intro hsd hch
    apply hsd
    rw [← hflat, hch]
    rfl

/-- Witness for C6 on a concrete two-parameter state dict split at 4 bytes. -/
theorem get_model_state_dict_shard_concat_witness :
    (get_model_state_dict_shard modelAB none (some 4)).flatten
      = [("a", p4), ("b", p4)] := by
  exact (get_model_state_dict_shard_concat modelAB 4 (by decide)).1

/-- Counterexample to C6 as stated: for the state dict holding one parameter
of zero byte size and `shard_size = 1`, the generator yields no chunk at all,
so the concatenation of the emitted chunks is empty and differs from the
original nonempty mapping (the final remainder is dropped because the
accumulated byte size is zero, not because the chunk is empty). -/
theorem get_model_state_dict_shard_concat_cex :
    get_model_state_dict_shard modelZ none (some 1) = []
      ∧ (get_model_state_dict_shard modelZ none (some 1)).flatten
          ≠ modelZ.state_dict := by
  refine ⟨rfl, by decide⟩

/-! Lemmas about `_try_init_dist`. -/

/-- A successful `int(os.environ[k])` implies the variable was present. -/
lemma readInt_ok_isSome {env : Env} {k : String} {n : Int}
    (h : readInt env k = .ok n) : (env k).isSome := by
  unfold readInt at h
  cases he : env k with
  | none => rw [he] at h; simp at h
  | some s => simp

/-- A run of the initialization body that returns normally read all five
environment variables, so all five were present. -/
lemma distInitBody_ok_env {env : Env} {lib : DistCall → Option PyExc}
    {effs : List Effect} (h : distInitBody env lib = .ok effs) :
    (env "RANK").isSome ∧ (env "LOCAL_RANK").isSome ∧ (env "WORLD_SIZE").isSome
      ∧ (env "MASTER_ADDR").isSome ∧ (env "MASTER_PORT").isSome := by
  unfold distInitBody at h
  split at h
  · simp at h
  rename_i rank h1
  split at h
  · simp at h
  rename_i local_rank h2
  split at h
  · simp at h
  rename_i world_size h3
  split at h
  · simp at h
  rename_i host h4
  split at h
  · simp at h
  rename_i port h5
  exact ⟨readInt_ok_isSome h1, readInt_ok_isSome h2, readInt_ok_isSome h3,
    by simp [h4], readInt_ok_isSome h5⟩

/-- C2: when all five variables are present and parse as required and the
library call returns, `_try_init_dist` hands `dist.init_process_group` the
endpoint `tcp://[host]:port` built from MASTER_ADDR and MASTER_PORT,
unchanged, together with the parsed `world_size` and `rank`, and then selects
the device with index the parsed LOCAL_RANK — for either value of `force`. -/
theorem tryInitDist_success (env : Env) (lib : DistCall → Option PyExc)
    (force : Bool) (r lr ws mp host : String)
    (rank local_rank world_size port : Int)
    (hR : env "RANK" = some r) (hRi : pyInt? r = some rank)
    (hL : env "LOCAL_RANK" = some lr) (hLi : pyInt? lr = some local_rank)
    (hW : env "WORLD_SIZE" = some ws) (hWi : pyInt? ws = some world_size)
    (hH : env "MASTER_ADDR" = some host)
    (hP : env "MASTER_PORT" = some mp) (hPi : pyInt? mp = some port)
    (hlib : lib (DistCall.mk "nccl"
        ("tcp://[" ++ host ++ "]:" ++ toString port) world_size rank) = none) :
    _try_init_dist env lib force
      = .ok [Effect.initPG (DistCall.mk "nccl"
               ("tcp://[" ++ host ++ "]:" ++ toString port) world_size rank),
             Effect.setDevice local_rank] := by
  have hbody : distInitBody env lib
      = .ok [Effect.initPG (DistCall.mk "nccl"
          ("tcp://[" ++ host ++ "]:" ++ toString port) world_size rank),
        Effect.setDevice local_rank] := by
    unfold distInitBody readInt
    rw [hR, hL, hW, hH, hP]
    simp only [hRi, hLi, hWi, hPi]
    rw [hlib]
  unfold _try_init_dist
  rw [hbody]

/-- Witness for C2 on a concrete fully populated environment. -/
theorem tryInitDist_success_witness :
    _try_init_dist envW lib0 true
      = .ok [Effect.initPG (DistCall.mk "nccl" "tcp://[10.0.0.1]:29500" 2 1),
             Effect.setDevice 0] := by
  have h := tryInitDist_success envW lib0 true "1" "0" "2" "29500" "10.0.0.1"
    1 0 2 29500 rfl rfl rfl rfl rfl rfl rfl rfl rfl rfl
  exact h

/-- C3: with any variable among the five missing, `_try_init_dist` with
`force = false` — and hence `setup_distributed`, which forwards
`force = false` — returns normally, performing no effects and raising
nothing. -/
theorem tryInitDist_missing_noforce (env : Env) (lib : DistCall → Option PyExc)
    (v : String)
    (hv : v ∈ ["RANK", "LOCAL_RANK", "WORLD_SIZE", "MASTER_ADDR",
      "MASTER_PORT"])
    (hnone : env v = none) :
    _try_init_dist env lib false = .ok []
      ∧ setup_distributed env lib = .ok [] := by
  have hbody : ∀ effs, distInitBody env lib ≠ .ok effs := by
    intro effs hok
    have h5 := distInitBody_ok_env hok
    simp only [List.mem_cons, List.not_mem_nil, or_false] at hv
    rcases hv with rfl | rfl | rfl | rfl | rfl <;> simp [hnone] at h5
  have hmain : _try_init_dist env lib false = .ok [] := by
    unfold _try_init_dist
    cases hb : distInitBody env lib with
    | ok effs => exact absurd hb (hbody effs)
    | error e => cases e <;> simp
  exact ⟨hmain, hmain⟩

/-- Witness for C3 on the empty environment. -/
theorem tryInitDist_missing_noforce_witness :
    _try_init_dist envNone lib0 false = .ok []
      ∧ setup_distributed envNone lib0 = .ok [] :=
  tryInitDist_missing_noforce envNone lib0 "RANK" (by decide) rfl

/-- The variable `k` is present with a value that parses as an integer. -/
def intEnvOk (env : Env) (k : String) : Prop :=
  ∃ s, env k = some s ∧ (pyInt? s).isSome

/-- C4 (amended): when some required variable is missing and every variable
read before the first missing one is present and parses as an integer where
one is required, `_try_init_dist` with `force = true` raises a `RuntimeError`
whose message names that missing variable. (As stated the claim fails: a
malformed value read before the missing variable raises its own error
first — see the counterexample.) -/
theorem tryInitDist_missing_force (env : Env) (lib : DistCall → Option PyExc)
    (v : String)
    (h : (env "RANK" = none ∧ v = "RANK")
      ∨ (intEnvOk env "RANK" ∧ env "LOCAL_RANK" = none ∧ v = "LOCAL_RANK")
      ∨ (intEnvOk env "RANK" ∧ intEnvOk env "LOCAL_RANK"
          ∧ env "WORLD_SIZE" = none ∧ v = "WORLD_SIZE")
      ∨ (intEnvOk env "RANK" ∧ intEnvOk env "LOCAL_RANK"
          ∧ intEnvOk env "WORLD_SIZE" ∧ env "MASTER_ADDR" = none
          ∧ v = "MASTER_ADDR")
      ∨ (intEnvOk env "RANK" ∧ intEnvOk env "LOCAL_RANK"
          ∧ intEnvOk env "WORLD_SIZE" ∧ (env "MASTER_ADDR").isSome
          ∧ env "MASTER_PORT" = none ∧ v = "MASTER_PORT")) :
    _try_init_dist env lib true
      = .error (.runtimeError (missingVarMsg v)) := by
  have hkey : distInitBody env lib = .error (.keyError v) := by
    rcases h with ⟨h1, rfl⟩
      | ⟨⟨s1, hs1, hp1⟩, h2, rfl⟩
      | ⟨⟨s1, hs1, hp1⟩, ⟨s2, hs2, hp2⟩, h3, rfl⟩
      | ⟨⟨s1, hs1, hp1⟩, ⟨s2, hs2, hp2⟩, ⟨s3, hs3, hp3⟩, h4, rfl⟩
      | ⟨⟨s1, hs1, hp1⟩, ⟨s2, hs2, hp2⟩, ⟨s3, hs3, hp3⟩, h4, h5, rfl⟩
    · unfold distInitBody readInt
      rw [h1]
    · obtain ⟨n1, hn1⟩ := Option.isSome_iff_exists.mp hp1
      unfold distInitBody readInt
      rw [hs1, h2]
      simp [hn1]
    · obtain ⟨n1, hn1⟩ := Option.isSome_iff_exists.mp hp1
      obtain ⟨n2, hn2⟩ := Option.isSome_iff_exists.mp hp2
      unfold distInitBody readInt
      rw [hs1, hs2, h3]
      simp [hn1, hn2]
    · obtain ⟨n1, hn1⟩ := Option.isSome_iff_exists.mp hp1
      obtain ⟨n2, hn2⟩ := Option.isSome_iff_exists.mp hp2
      obtain ⟨n3, hn3⟩ := Option.isSome_iff_exists.mp hp3
      unfold distInitBody readInt
      rw [hs1, hs2, hs3, h4]
      simp [hn1, hn2, hn3]
    · obtain ⟨n1, hn1⟩ := Option.isSome_iff_exists.mp hp1
      obtain ⟨n2, hn2⟩ := Option.isSome_iff_exists.mp hp2
      obtain ⟨n3, hn3⟩ := Option.isSome_iff_exists.mp hp3
      obtain ⟨host, hhost⟩ := Option.isSome_iff_exists.mp h4
      unfold distInitBody readInt
      rw [hs1, hs2, hs3, hhost, h5]
      simp [hn1, hn2, hn3]
  unfold _try_init_dist
  rw [hkey]
  rfl

/-- Witness for C4 on the empty environment: RANK is reported missing. -/
theorem tryInitDist_missing_force_witness :
    _try_init_dist envNone lib0 true
      = .error (.runtimeError (missingVarMsg "RANK")) :=
  tryInitDist_missing_force envNone lib0 "RANK" (Or.inl ⟨rfl, rfl⟩)

/-- Counterexample to C4 as stated: `cexEnv` is missing LOCAL_RANK (one of
the five required variables), yet forcing initialization raises the
`ValueError` produced by `int("abc")` on RANK — no `RuntimeError` naming a
missing variable is raised. -/
theorem tryInitDist_missing_force_cex :
    cexEnv "LOCAL_RANK" = none
      ∧ _try_init_dist cexEnv lib0 true
          = .error (.valueError "invalid literal for int() with base 10: abc")
      ∧ raisedRuntimeError (_try_init_dist cexEnv lib0 true) = false := by
  refine ⟨rfl, rfl, rfl⟩

/-- C5: any exception raised during initialization other than a `KeyError`
(the class the code equates with a missing environment variable) — for
example the `ValueError` of a non-integer value, or whatever the library
initialization call raises — is swallowed with a normal return when
`force = false`, and re-raised exactly unchanged when `force = true`. -/
theorem tryInitDist_other_exception (env : Env) (lib : DistCall → Option PyExc)
    (e : PyExc) (hbody : distInitBody env lib = .error e)
    (hnk : e.isKeyError = false) :
    _try_init_dist env lib false = .ok []
      ∧ _try_init_dist env lib true = .error e := by
  unfold _try_init_dist
  rw [hbody]
  cases e with
  | keyError k => simp [PyExc.isKeyError] at hnk
  | valueError m => exact ⟨rfl, rfl⟩
  | runtimeError m => exact ⟨rfl, rfl⟩
  | otherError t => exact ⟨rfl, rfl⟩

/-- Witness for C5 on the environment whose RANK value is not an integer:
the `ValueError` is swallowed without force and re-raised unchanged with
force. -/
theorem tryInitDist_other_exception_witness :
    _try_init_dist cexEnv lib0 false = .ok []
      ∧ _try_init_dist cexEnv lib0 true
          = .error (.valueError "invalid literal for int() with base 10: abc") :=
  tryInitDist_other_exception cexEnv lib0
    (.valueError "invalid literal for int() with base 10: abc") rfl rfl

/-! Theorems about `save_pretrained`. -/

/-- C7: for every call whose unwrapped model passes the `PreTrainedModel`
assertion, the unwrapped model is serialized to the caller-specified path,
and the tokenizer is serialized to the same path exactly when a tokenizer is
supplied — these are all the serialization calls performed, in that order,
for either value of `only_rank0`. -/
theorem save_pretrained_effects (model : PyModel) (path : String)
    (only_rank0 : Bool) (tokenizer : Option String)
    (h : (unwrap_model model).isPreTrainedModel = true) :
    save_pretrained model path only_rank0 tokenizer
      = .ok (SaveEffect.modelSaved (unwrap_model model) path ::
          (tokenizer.map (fun t => SaveEffect.tokenizerSaved t path)).toList)
    := by
  cases tokenizer <;> simp [save_pretrained, h]

/-- Witness for C7 on a concrete pretrained model with a tokenizer. -/
theorem save_pretrained_effects_witness :
    save_pretrained modelW "out" true (some "tok")
      = .ok [SaveEffect.modelSaved modelW "out",
             SaveEffect.tokenizerSaved "tok" "out"] := by
  exact save_pretrained_effects modelW "out" true (some "tok") rfl

/-- C10: the `only_rank0` argument of `save_pretrained` is never read, so
two calls differing only in it perform exactly the same serialization calls
and produce the same result, for every model, path and tokenizer. -/
theorem save_pretrained_only_rank0_irrelevant (model : PyModel) (path : String)
    (b b' : Bool) (tokenizer : Option String) :
    save_pretrained model path b tokenizer
      = save_pretrained model path b' tokenizer := rfl
